import Mathlib

/-!
Verification of the conversation compaction coordinator of the goose
desktop UI (`ui/desktop/src/components/context_management/`), a shallow
embedding of `ContextManager.tsx` (the `performCompaction` coordinator and
its two triggers) and `CompactionMarker.tsx` (the marker renderer).

Modelling conventions:
* A JavaScript `Message` object becomes the structure `Message`; the content
  union (`text`, `compactionMarker`, other variants, which are opaque
  pass-through data here) becomes the inductive `MessageContent`.
* `Date.now()` (milliseconds since epoch) is a parameter `now : Nat` of each
  run; `Math.floor(Date.now() / 1000)` is `now / 1000` (Nat division).
* The remote capability `manageContextFromBackend` is external to the
  repository; a run takes its outcome as a parameter of type
  `Except BackendFailure (List ApiMessage)`: `Except.error` is a rejected
  promise (transport error, non-2xx, unparseable body, thrown exception),
  `Except.ok` a resolved one carrying the response's `messages` array.
* The effects of one `performCompaction` invocation — every `setMessages`
  call, every remote summarization request, every `append` (resume)
  invocation, and the final `isCompacting` / `compactionError` state — are
  collected in the `CompactionRun` record; the `try`/`catch` of the source
  is the `match` on the backend outcome.
-/

/-- A content block of a message: a tagged variant. `text` and
`compactionMarker` are the variants relevant to this core; every other
variant of the wider system is carried opaquely as `other`. -/
inductive MessageContent where
  | text (text : String)
  | compactionMarker (msg : String)
  | other (tag : String)
  deriving DecidableEq, Repr

/-- A frontend conversation message (`Message` of `types/message`):
identifier, role, creation time in seconds, ordered content blocks, and the
`display` / `sendToLLM` flags. -/
structure Message where
  id : String
  role : String
  created : Nat
  content : List MessageContent
  display : Bool
  sendToLLM : Bool
  deriving DecidableEq, Repr

/-- A provider-shaped message as returned by the summarization backend
(the elements of `summaryResponse.messages`). -/
structure ApiMessage where
  id : String
  role : String
  created : Nat
  content : List MessageContent
  deriving DecidableEq, Repr

/-- Modelled from the spec: `convertApiMessageToFrontendMessage` lives in
`context_management/index`, which is not part of the sources; per the spec
the converted summary message keeps the response content and gets
`display = false`, `sendToLLM = true` (the source calls it with the
arguments `(apiMessage, false, true)`, commented "don't show to user but
send to llm"). -/
def convertApiMessageToFrontendMessage (m : ApiMessage)
    (display sendToLLM : Bool) : Message :=
  { id := m.id
    role := m.role
    created := m.created
    content := m.content
    display := display
    sendToLLM := sendToLLM }

/-- The coordinator's process-local state: `isCompacting` and
`compactionError` (`null` is `none`). -/
structure ContextManagerState where
  isCompacting : Bool
  compactionError : Option String
  deriving DecidableEq, Repr

/-- The state a freshly created provider holds: `(false, null)`. -/
def initialState : ContextManagerState :=
  { isCompacting := false, compactionError := none }

/-- A value rejected by the remote summarization promise: either a
JavaScript `Error` carrying `.message`, or any non-`Error` thrown value. -/
inductive BackendFailure where
  | jsError (message : String)
  | nonError
  deriving DecidableEq, Repr

/-- The string `performCompaction` stores in `compactionError` on failure:
`err instanceof Error ? err.message : 'Unknown error during compaction'`. -/
def failureMessage : BackendFailure → String
  | .jsError m => m
  | .nonError => "Unknown error during compaction"

/-- The in-flight compaction marker message built at the top of the `try`
block: id `compaction-marker-${Date.now()}`, role `assistant`, created
`Math.floor(Date.now() / 1000)`, a single `compactionMarker` block whose
text depends on `isManual`, `display = true`, `sendToLLM = false`. -/
def inFlightMarker (isManual : Bool) (now : Nat) : Message :=
  { id := "compaction-marker-" ++ toString now
    role := "assistant"
    created := now / 1000
    content := [MessageContent.compactionMarker
      (if isManual then "Compacting conversation as requested..."
       else "Context limit reached. Compacting conversation...")]
    display := true
    sendToLLM := false }

/-- The completed marker built on success: the in-flight marker spread with
its content replaced by the completion status block (same identifier). -/
def completedMarker (marker : Message) : Message :=
  { marker with
    content := [MessageContent.compactionMarker
      "Conversation compacted. Summary prepared to continue."] }

/-- The error marker message built in the `catch` block: id
`compaction-error-${Date.now()}`, role `assistant`, a single
`compactionMarker` block with the failure status text, `display = true`,
`sendToLLM = false`. -/
def errorMarker (now : Nat) : Message :=
  { id := "compaction-error-" ++ toString now
    role := "assistant"
    created := now / 1000
    content := [MessageContent.compactionMarker
      "Compaction failed. Please try again or start a new session."]
    display := true
    sendToLLM := false }

/-- The test of the source's `if` on the success path:
`summaryMessage && summaryMessage.content[0] && summaryMessage.content[0].type === 'text'`
applied to `convertedMessages[0]`. -/
def firstConvertedHasText (converted : List Message) : Bool :=
  match converted with
  | [] => false
  | m :: _ =>
    match m.content with
    | MessageContent.text _ :: _ => true
    | _ => false

/-- Everything observable about one `performCompaction` invocation: the
`setMessages` calls in order (the caller's history after the run is the
last one), the remote summarization requests `(messages, manageAction)`,
the `append` (resume) invocations, and the final coordinator state. -/
structure CompactionRun where
  setMessagesCalls : List (List Message)
  summarizeRequests : List (List Message × String)
  appendCalls : List Message
  finalState : ContextManagerState
  deriving DecidableEq, Repr

/-- The caller's history once the run has completed: the argument of the
last `setMessages` call (`none` only if `setMessages` was never called). -/
def finalHistory (run : CompactionRun) : Option (List Message) :=
  run.setMessagesCalls.getLast?

/-- Shallow embedding of `performCompaction` (`ContextManager.tsx`,
lines 34-128). The function never reads the coordinator state it starts
from — the source sets `isCompacting` / `compactionError` without checking
them — so `st` is an ignored parameter recording the state at invocation
time. The branches are the source's three paths: the `catch` block, the
success path whose `if` guard holds (`convertedMessages[0]` exists, its
`content[0]` exists and is of type `text`), and the success path whose `if`
guard fails, which runs no further effect before `setIsCompacting(false)`. -/
def performCompaction (st : ContextManagerState) (messages : List Message)
    (backend : Except BackendFailure (List ApiMessage))
    (isManual : Bool) (now : Nat) : CompactionRun :=
  let _ := st
  let marker := inFlightMarker isManual now
  match backend with
  | .error f =>
    { setMessagesCalls := [messages ++ [marker], messages ++ [errorMarker now]]
      summarizeRequests := [(messages, "summarize")]
      appendCalls := []
      finalState := { isCompacting := false
                      compactionError := some (failureMessage f) } }
  | .ok apiMsgs =>
    match apiMsgs.map (fun a => convertApiMessageToFrontendMessage a false true) with
    | summaryMessage :: _ =>
      match summaryMessage.content with
      | MessageContent.text _ :: _ =>
        { setMessagesCalls :=
            [messages ++ [marker], [completedMarker marker, summaryMessage]]
          summarizeRequests := [(messages, "summarize")]
          appendCalls := [summaryMessage]
          finalState := { isCompacting := false, compactionError := none } }
      | _ =>
        { setMessagesCalls := [messages ++ [marker]]
          summarizeRequests := [(messages, "summarize")]
          appendCalls := []
          finalState := { isCompacting := false, compactionError := none } }
    | [] =>
      { setMessagesCalls := [messages ++ [marker]]
        summarizeRequests := [(messages, "summarize")]
        appendCalls := []
        finalState := { isCompacting := false, compactionError := none } }

/-- `handleAutoCompaction`: delegates to `performCompaction` with
`isManual = false`. -/
def handleAutoCompaction (st : ContextManagerState) (messages : List Message)
    (backend : Except BackendFailure (List ApiMessage)) (now : Nat) :
    CompactionRun :=
  performCompaction st messages backend false now

/-- `handleManualCompaction`: delegates to `performCompaction` with
`isManual = true` (the source passes a no-op `append`; the run still
records the invocations `performCompaction` makes of it). -/
def handleManualCompaction (st : ContextManagerState) (messages : List Message)
    (backend : Except BackendFailure (List ApiMessage)) (now : Nat) :
    CompactionRun :=
  performCompaction st messages backend true now

/-- `hasCompactionMarker` of `ContextManager.tsx`: true iff some content
block of the message has the `compactionMarker` tag. -/
def hasCompactionMarker (message : Message) : Bool :=
  message.content.any (fun content =>
    match content with
    | MessageContent.compactionMarker _ => true
    | _ => false)

/-- The `find` of `CompactionMarker.tsx`, line 9: the first content block
tagged `compactionMarker`, if any. -/
def findCompactionContent (message : Message) : Option MessageContent :=
  message.content.find? (fun content =>
    match content with
    | MessageContent.compactionMarker _ => true
    | _ => false)

/-- The text the `CompactionMarker` renderer displays:
`compactionContent?.msg || 'Conversation compacted'` — the default is used
when no marker block exists or when its `msg` is empty (the empty string is
falsy under `||`). -/
def compactionMarkerText (message : Message) : String :=
  match findCompactionContent message with
  | some (MessageContent.compactionMarker msg) =>
    if msg = "" then "Conversation compacted" else msg
  | _ => "Conversation compacted"

/-- The single-message history of the spec's test scenario (§8). -/
def sampleUserMessage : Message :=
  { id := "1", role := "user", created := 0
    content := [MessageContent.text "hi"]
    display := true
    sendToLLM := true }

/-- The summarization response message of the spec's test scenario (§8). -/
def sampleApiSummary : ApiMessage :=
  { id := "s1", role := "assistant", created := 0
    content := [MessageContent.text "Summary of conversation."] }

/-- A message whose single content block is a `compactionMarker` with an
empty `msg`. -/
def emptyMsgMarkerMessage : Message :=
  { id := "m", role := "assistant", created := 0
    content := [MessageContent.compactionMarker ""]
    display := true
    sendToLLM := false }

/-- Helper: `performCompaction` issues exactly one remote summarization
request, `(messages, "summarize")`, on every path. -/
theorem performCompaction_summarizeRequests
    (st : ContextManagerState) (messages : List Message)
    (backend : Except BackendFailure (List ApiMessage))
    (isManual : Bool) (now : Nat) :
    (performCompaction st messages backend isManual now).summarizeRequests =
      [(messages, "summarize")] := by
  cases backend with
  | error f => rfl
  | ok apiMsgs =>
    cases apiMsgs with
    | nil => rfl
    | cons a rest =>
      cases hc : a.content with
      | nil => simp [performCompaction, convertApiMessageToFrontendMessage, hc]
      | cons c cs =>
        cases c <;>
          simp [performCompaction, convertApiMessageToFrontendMessage, hc]

/-- Helper: the first `setMessages` call of every path appends the
in-flight marker to the given history. -/
theorem performCompaction_first_setMessages
    (st : ContextManagerState) (messages : List Message)
    (backend : Except BackendFailure (List ApiMessage))
    (isManual : Bool) (now : Nat) :
    (performCompaction st messages backend isManual now).setMessagesCalls.head? =
      some (messages ++ [inFlightMarker isManual now]) := by
  cases backend with
  | error f => rfl
  | ok apiMsgs =>
    cases apiMsgs with
    | nil => rfl
    | cons a rest =>
      cases hc : a.content with
      | nil => simp [performCompaction, convertApiMessageToFrontendMessage, hc]
      | cons c cs =>
        cases c <;>
          simp [performCompaction, convertApiMessageToFrontendMessage, hc]

/-- Helper: a list whose `any p` is false has no `find? p` hit. -/
theorem find_none_of_any_false {α : Type} (p : α → Bool) (l : List α)
    (h : l.any p = false) : l.find? p = none := by
  induction l with
  | nil => rfl
  | cons x xs ih =>
    simp only [List.any_cons, Bool.or_eq_false_iff] at h
    simp [List.find?, h.1, ih h.2]

/-- C1: for every history and every successful summarization response whose
first converted message's first content block is of type `text`, after
`performCompaction` the caller's history equals exactly
`[completedMarker, summaryMessage]`; the completed marker keeps the
in-flight marker's identifier and carries the msg
"Conversation compacted. Summary prepared to continue.", regardless of the
length of the input history. -/
theorem performCompaction_success_collapses_history
    (st : ContextManagerState) (messages : List Message)
    (a : ApiMessage) (rest : List ApiMessage) (isManual : Bool) (now : Nat)
    (s : String) (tail : List MessageContent)
    (h : a.content = MessageContent.text s :: tail) :
    finalHistory (performCompaction st messages
        (Except.ok (a :: rest)) isManual now) =
      some [completedMarker (inFlightMarker isManual now),
            convertApiMessageToFrontendMessage a false true] ∧
    (completedMarker (inFlightMarker isManual now)).id =
      (inFlightMarker isManual now).id ∧
    (completedMarker (inFlightMarker isManual now)).content =
      [MessageContent.compactionMarker
        "Conversation compacted. Summary prepared to continue."] := by
  refine ⟨?_, rfl, rfl⟩
  simp [finalHistory, performCompaction, convertApiMessageToFrontendMessage, h]

/-- Witness for C1 at the spec's §8 scenario: one-message history, response
whose first message carries "Summary of conversation.". -/
theorem performCompaction_success_collapses_history_witness :
    finalHistory (performCompaction initialState [sampleUserMessage]
        (Except.ok [sampleApiSummary]) true 5) =
      some [completedMarker (inFlightMarker true 5),
            convertApiMessageToFrontendMessage sampleApiSummary false true] ∧
    (completedMarker (inFlightMarker true 5)).id =
      (inFlightMarker true 5).id ∧
    (completedMarker (inFlightMarker true 5)).content =
      [MessageContent.compactionMarker
        "Conversation compacted. Summary prepared to continue."] :=
  performCompaction_success_collapses_history initialState [sampleUserMessage]
    sampleApiSummary [] true 5 "Summary of conversation." [] rfl

/-- C2 counterexample: on the spec's §8 failure scenario (one-message
history, backend rejecting with "network error") the final history is the
original message plus the error marker only — two entries, not the three
(original, in-flight marker, error marker) the claim requires; the
in-flight marker is not retained. -/
theorem performCompaction_failure_final_history_has_no_inflight_marker :
    finalHistory (performCompaction initialState [sampleUserMessage]
        (Except.error (BackendFailure.jsError "network error")) true 5) =
      some [sampleUserMessage, errorMarker 5] ∧
    some [sampleUserMessage, errorMarker 5] ≠
      some [sampleUserMessage, inFlightMarker true 5, errorMarker 5] :=
  ⟨by decide, by decide⟩

/-- C2 amended: on a rejecting summarization call the caller's final
history equals the pre-marker history with exactly one error marker
appended (length N+1, the original N entries unaltered); the in-flight
marker is not retained, because the catch block rebuilds the history from
the pre-marker `messages` value. -/
theorem performCompaction_failure_appends_error_to_premarker_history
    (st : ContextManagerState) (messages : List Message)
    (f : BackendFailure) (isManual : Bool) (now : Nat) :
    finalHistory (performCompaction st messages (Except.error f) isManual now) =
      some (messages ++ [errorMarker now]) ∧
    (messages ++ [errorMarker now]).length = messages.length + 1 ∧
    (messages ++ [errorMarker now]).take messages.length = messages ∧
    (performCompaction st messages
      (Except.error f) isManual now).finalState.isCompacting = false := by
  refine ⟨?_, by simp, by simp, rfl⟩
  simp [finalHistory, performCompaction]

/-- C3 counterexample: on a successfully received but malformed response
(empty message list), `performCompaction` does not behave like a remote
failure: `compactionError` stays null, no error marker is appended (the
final history still ends with the in-flight marker), and resume is not
invoked. -/
theorem performCompaction_malformed_response_is_silent :
    (performCompaction initialState [sampleUserMessage]
        (Except.ok []) false 5).finalState.compactionError = none ∧
    finalHistory (performCompaction initialState [sampleUserMessage]
        (Except.ok []) false 5) =
      some [sampleUserMessage, inFlightMarker false 5] ∧
    (performCompaction initialState [sampleUserMessage]
        (Except.ok []) false 5).appendCalls = [] :=
  ⟨by decide, by decide, by decide⟩

/-- C3 amended: on a malformed successful response (first converted message
missing, or its first content block missing or not of type `text`),
`performCompaction` completes silently: it appends only the in-flight
marker, issues the single summarize request, never calls resume, resets
`isCompacting` to false — and, unlike a remote failure, leaves
`compactionError` null and appends no error marker. -/
theorem performCompaction_malformed_completes_silently
    (st : ContextManagerState) (messages : List Message)
    (apiMsgs : List ApiMessage) (isManual : Bool) (now : Nat)
    (h : firstConvertedHasText (apiMsgs.map
      (fun a => convertApiMessageToFrontendMessage a false true)) = false) :
    performCompaction st messages (Except.ok apiMsgs) isManual now =
      { setMessagesCalls := [messages ++ [inFlightMarker isManual now]]
        summarizeRequests := [(messages, "summarize")]
        appendCalls := []
        finalState := { isCompacting := false, compactionError := none } } := by
  cases apiMsgs with
  | nil => rfl
  | cons a rest =>
    cases hc : a.content with
    | nil => simp [performCompaction, convertApiMessageToFrontendMessage, hc]
    | cons c cs =>
      cases c with
      | text s =>
        exfalso
        simp [firstConvertedHasText, convertApiMessageToFrontendMessage, hc] at h
      | compactionMarker m =>
        simp [performCompaction, convertApiMessageToFrontendMessage, hc]
      | other t =>
        simp [performCompaction, convertApiMessageToFrontendMessage, hc]

/-- Witness for C3's amended theorem at the empty-response input. -/
theorem performCompaction_malformed_completes_silently_witness :
    performCompaction initialState [sampleUserMessage]
        (Except.ok []) false 5 =
      { setMessagesCalls := [[sampleUserMessage] ++ [inFlightMarker false 5]]
        summarizeRequests := [([sampleUserMessage], "summarize")]
        appendCalls := []
        finalState := { isCompacting := false, compactionError := none } } :=
  performCompaction_malformed_completes_silently initialState
    [sampleUserMessage] [] false 5 rfl

/-- C4 counterexample: a manual trigger invoked while `isCompacting` is
already true still issues a remote summarization request — the coordinator
has no exclusivity guard, so a second compaction does start. -/
theorem second_trigger_still_summarizes :
    (handleManualCompaction { isCompacting := true, compactionError := none }
        [sampleUserMessage] (Except.ok [sampleApiSummary]) 5).summarizeRequests =
      [([sampleUserMessage], "summarize")] ∧
    [([sampleUserMessage], "summarize")] ≠ ([] : List (List Message × String)) :=
  ⟨by decide, by decide⟩

/-- C4 amended: the triggers have no exclusivity guard. Their behavior is
completely independent of the coordinator state at invocation time — an
invocation made while `isCompacting` is true issues its own remote
summarization call and performs the full compaction exactly like a fresh
invocation. -/
theorem triggers_independent_of_isCompacting
    (st st' : ContextManagerState) (messages : List Message)
    (backend : Except BackendFailure (List ApiMessage)) (now : Nat) :
    handleManualCompaction st messages backend now =
      handleManualCompaction st' messages backend now ∧
    handleAutoCompaction st messages backend now =
      handleAutoCompaction st' messages backend now ∧
    (handleManualCompaction st messages backend now).summarizeRequests =
      [(messages, "summarize")] ∧
    (handleAutoCompaction st messages backend now).summarizeRequests =
      [(messages, "summarize")] :=
  ⟨rfl, rfl,
   performCompaction_summarizeRequests st messages backend true now,
   performCompaction_summarizeRequests st messages backend false now⟩

/-- C5: on every successful compaction the resume capability (`append`) is
invoked exactly once, with the summary message — the converted first
response message, whose content is exactly the content of the response's
first message, beginning with its text block; on every failed compaction
`append` is invoked zero times. -/
theorem resume_invocations
    (st : ContextManagerState) (messages : List Message)
    (a : ApiMessage) (rest : List ApiMessage) (isManual : Bool) (now : Nat)
    (s : String) (tail : List MessageContent) (f : BackendFailure)
    (h : a.content = MessageContent.text s :: tail) :
    (performCompaction st messages
        (Except.ok (a :: rest)) isManual now).appendCalls =
      [convertApiMessageToFrontendMessage a false true] ∧
    (convertApiMessageToFrontendMessage a false true).content =
      MessageContent.text s :: tail ∧
    (performCompaction st messages (Except.error f) isManual now).appendCalls =
      [] := by
  refine ⟨?_, by simp [convertApiMessageToFrontendMessage, h], rfl⟩
  simp [performCompaction, convertApiMessageToFrontendMessage, h]

/-- Witness for C5 at the spec's §8 scenario. -/
theorem resume_invocations_witness :
    (performCompaction initialState [sampleUserMessage]
        (Except.ok [sampleApiSummary]) true 5).appendCalls =
      [convertApiMessageToFrontendMessage sampleApiSummary false true] ∧
    (convertApiMessageToFrontendMessage sampleApiSummary false true).content =
      MessageContent.text "Summary of conversation." :: [] ∧
    (performCompaction initialState [sampleUserMessage]
        (Except.error (BackendFailure.jsError "network error"))
        true 5).appendCalls = [] :=
  resume_invocations initialState [sampleUserMessage] sampleApiSummary []
    true 5 "Summary of conversation." [] (BackendFailure.jsError "network error")
    rfl

/-- C6: on every path the single remote summarization request carries
exactly the pre-marker history together with the action tag "summarize";
the in-flight marker appended in the same operation goes only into the
first `setMessages` call, never into the request. -/
theorem summarize_request_is_premarker_history
    (st : ContextManagerState) (messages : List Message)
    (backend : Except BackendFailure (List ApiMessage))
    (isManual : Bool) (now : Nat) :
    (performCompaction st messages backend isManual now).summarizeRequests =
      [(messages, "summarize")] ∧
    (performCompaction st messages backend isManual now).setMessagesCalls.head? =
      some (messages ++ [inFlightMarker isManual now]) :=
  ⟨performCompaction_summarizeRequests st messages backend isManual now,
   performCompaction_first_setMessages st messages backend isManual now⟩

/-- C7: both coordinator-built markers have role `assistant`, an identifier
freshly derived from the current clock with kind-distinct prefixes (so the
two markers of one run never share an identifier), the current timestamp in
seconds, `display = true`, `sendToLLM = false` (markers are never sent to
the model), and exactly one `compactionMarker` content block; the in-flight
marker's status text differs between the manual and the automatic
trigger. -/
theorem markers_are_synthetic_and_not_sent (isManual : Bool) (now : Nat) :
    (inFlightMarker isManual now).role = "assistant" ∧
    (inFlightMarker isManual now).id = "compaction-marker-" ++ toString now ∧
    (inFlightMarker isManual now).created = now / 1000 ∧
    (inFlightMarker isManual now).display = true ∧
    (inFlightMarker isManual now).sendToLLM = false ∧
    (inFlightMarker true now).content =
      [MessageContent.compactionMarker
        "Compacting conversation as requested..."] ∧
    (inFlightMarker false now).content =
      [MessageContent.compactionMarker
        "Context limit reached. Compacting conversation..."] ∧
    (inFlightMarker true now).content ≠ (inFlightMarker false now).content ∧
    (errorMarker now).role = "assistant" ∧
    (errorMarker now).id = "compaction-error-" ++ toString now ∧
    (errorMarker now).created = now / 1000 ∧
    (errorMarker now).display = true ∧
    (errorMarker now).sendToLLM = false ∧
    (errorMarker now).content =
      [MessageContent.compactionMarker
        "Compaction failed. Please try again or start a new session."] ∧
    (inFlightMarker isManual now).id ≠ (errorMarker now).id := by
  have htext : (inFlightMarker true 0).content ≠ (inFlightMarker false 0).content := by
    decide
  refine ⟨rfl, rfl, rfl, rfl, rfl, rfl, rfl, htext, rfl, rfl, rfl, rfl,
    rfl, rfl, ?_⟩
  intro h
  have h2 := congrArg String.length h
  rw [inFlightMarker, errorMarker] at h2
  rw [String.length_append, String.length_append] at h2
  have e1 : ("compaction-marker-" : String).length = 18 := rfl
  have e2 : ("compaction-error-" : String).length = 17 := rfl
  rw [e1, e2] at h2
  omega

/-- C8: a rejected summarization promise is always caught by the `catch`
block, so both triggers return a fully determined (resolved) run: the
failure is mapped to the internal failure path — `compactionError` holds
the mapped human-readable message, the error marker is appended, resume is
never invoked — and no rejection propagates to the caller. -/
theorem backend_failure_caught_and_mapped
    (st : ContextManagerState) (messages : List Message)
    (f : BackendFailure) (now : Nat) :
    handleManualCompaction st messages (Except.error f) now =
      { setMessagesCalls := [messages ++ [inFlightMarker true now],
                             messages ++ [errorMarker now]]
        summarizeRequests := [(messages, "summarize")]
        appendCalls := []
        finalState := { isCompacting := false
                        compactionError := some (failureMessage f) } } ∧
    handleAutoCompaction st messages (Except.error f) now =
      { setMessagesCalls := [messages ++ [inFlightMarker false now],
                             messages ++ [errorMarker now]]
        summarizeRequests := [(messages, "summarize")]
        appendCalls := []
        finalState := { isCompacting := false
                        compactionError := some (failureMessage f) } } :=
  ⟨rfl, rfl⟩

/-- C9: a message whose first `compactionMarker` content block has an empty
`msg` renders as the literal default "Conversation compacted", and the
renderer is a pure projection — rendering the same message again yields the
identical output. -/
theorem marker_empty_msg_renders_default (message : Message)
    (h : findCompactionContent message =
      some (MessageContent.compactionMarker "")) :
    compactionMarkerText message = "Conversation compacted" ∧
    compactionMarkerText message = compactionMarkerText message :=
  ⟨by simp [compactionMarkerText, h], rfl⟩

/-- Witness for C9 at a concrete empty-`msg` marker message. -/
theorem marker_empty_msg_renders_default_witness :
    compactionMarkerText emptyMsgMarkerMessage = "Conversation compacted" ∧
    compactionMarkerText emptyMsgMarkerMessage =
      compactionMarkerText emptyMsgMarkerMessage :=
  marker_empty_msg_renders_default emptyMsgMarkerMessage (by decide)

/-- C10: on a message with no `compactionMarker` content block at all the
renderer is still total — `find` yields no hit and the text falls through
to the default "Conversation compacted"; no runtime failure is possible
since `compactionMarkerText` is a total function. -/
theorem renderer_defaults_without_marker (message : Message)
    (h : hasCompactionMarker message = false) :
    compactionMarkerText message = "Conversation compacted" := by
  have hfind : findCompactionContent message = none :=
    find_none_of_any_false _ _ h
  simp [compactionMarkerText, hfind]

/-- Witness for C10 at a plain text-only message. -/
theorem renderer_defaults_without_marker_witness :
    compactionMarkerText sampleUserMessage = "Conversation compacted" :=
  renderer_defaults_without_marker sampleUserMessage (by decide)
